import Mathlib

/-!
Shallow embedding of the ckey virtual WebAuthn authenticator.

The embedding covers the key-wrap codec and credential source
serialization (auth_storage, with the PSKStorage endpoint slot), the
recovery/delegation engine (webauthn_psk: pools, delegations, the
recover flow, plus the older recovery.ts popBackupKey), and the
attestation/assertion flows of webauthn.ts.

Crypto idealization: PBKDF2 key derivation is modelled as the pair of
its inputs (pin bytes, salt), so derived keys coincide exactly when pin
and salt coincide; AES-GCM key wrapping is modelled as a perfect AEAD:
the ciphertext is the authenticated tuple of wrapping key, IV and the
exported key material, and decryption succeeds exactly when the same
wrapping key and IV are presented, returning the original material.
SHA-256 is modelled as an injective digest function. PINs and
base64url credential ids are represented by their byte lists (the
base64url codec of utils.ts is a bijection between id strings and byte
arrays, so ids are identified with their byte arrays throughout).
-/

namespace Ckey

/-- Byte strings; model bytes are natural numbers. -/
abbrev Bytes := List Nat

/-- UTF-8 style byte view of a string (character codes). -/
def strToBytes (s : String) : Bytes := s.data.map Char.toNat

/-- Reserved PSK extension identifier (webauthn_psk). -/
def PSK : String := "psk"

/-- Storage identifier of the backup key pool (webauthn_psk). -/
def BACKUP : String := "backup"

/-- Storage identifier of the recovery key pool (webauthn_psk). -/
def RECOVERY : String := "recovery"

/-- Modelled from the spec: constants.ts is not under src/. Fixed salt
length used by the key-wrap codec (a configured constant). -/
def saltLength : Nat := 16

/-- Modelled from the spec: constants.ts is not under src/. Fixed IV
length used by the key-wrap codec (a configured constant). -/
def ivLength : Nat := 12

/-- Modelled from the spec: constants.ts is not under src/. Storage key
of the endpoint-configuration slot. The spec treats the endpoint slot
as separate from the backup-key slot, so the two keys differ. -/
def BD_ENDPOINT : String := "bdEndpoint"

/-- Modelled from the spec: constants.ts is not under src/. Storage key
of the backup-key slot of PSKStorage. -/
def BACKUP_KEY : String := "backupKey"

/-- Modelled from the spec: constants.ts is not under src/. Hardcoded
fallback endpoint returned when no endpoint is stored. -/
def DEFAULT_BD_ENDPOINT : String := "https://bd.fallback.example"

/-- A WebCrypto key: its algorithm descriptor (the UTF-8 JSON bytes of
key.algorithm), its exported key material, and its permitted usages. -/
structure CryptoKey where
  algorithm : Bytes
  material : Bytes
  usages : List String
deriving DecidableEq

/-- A PBKDF2-derived AES-GCM wrapping key, idealized as the pair of the
derivation inputs: two derived keys coincide exactly when the pin and
the salt coincide. -/
structure WrappingKey where
  pin : Bytes
  salt : Bytes
deriving DecidableEq

/-- getWrappingKey of auth_storage: PBKDF2 (SHA-256, 100000 iterations)
over the encoded pin and the salt, producing a 256-bit AES-GCM key;
idealized as the pair of its inputs. -/
def getWrappingKey (pin salt : Bytes) : WrappingKey := ⟨pin, salt⟩

/-- Length-tagged byte segment, used by the idealized AEAD ciphertext. -/
def lenTag (l : Bytes) : Bytes := l.length :: l

/-- Idealized AES-GCM wrapKey: the ciphertext is the authenticated
encoding of the wrapping key, the IV and the exported key material. -/
def aesGcmWrapKey (wk : WrappingKey) (iv : Bytes) (material : Bytes) : Bytes :=
  lenTag wk.pin ++ lenTag wk.salt ++ lenTag iv ++ material

/-- Idealized AES-GCM unwrapKey: authentication succeeds exactly when
the presented wrapping key and IV are the ones the ciphertext was made
with, and then yields the original key material; any mismatch is a
single opaque authentication failure (the IntegrityFailure of the
spec), indistinguishable between wrong pin and corrupted data. -/
def aesGcmUnwrapKey (wk : WrappingKey) (iv : Bytes) (ct : Bytes) : Option Bytes :=
  let tag := lenTag wk.pin ++ lenTag wk.salt ++ lenTag iv
  if ct.take tag.length = tag then some (ct.drop tag.length) else none

/-- PublicKeyCredentialSource of auth_storage. -/
structure PublicKeyCredentialSource where
  id : Bytes
  privateKey : CryptoKey
  rpId : String
  userHandle : Option Bytes
  type : String
deriving DecidableEq

/-- The JSON record produced by PublicKeyCredentialSource.export: the
private key is replaced by the wrapped-key payload bytes. -/
structure ExportedCredential where
  id : Bytes
  privateKey : Bytes
  rpId : String
  userHandle : Option Bytes
  type : String
deriving DecidableEq

/-- PublicKeyCredentialSource.export of auth_storage. The salt and IV
are the freshly generated random values (randomness is passed in); the
pin is the value handed to getWrappingKey (the source passes its PIN
constant from constants.ts). Payload layout: three header length bytes
(written with Uint8Array.of, hence mod 256), then salt, IV, the JSON
algorithm descriptor, then the wrapped key ciphertext. -/
def PublicKeyCredentialSource.exportJson (src : PublicKeyCredentialSource)
    (pin salt iv : Bytes) : ExportedCredential :=
  let wrappingKey := getWrappingKey pin salt
  let wrappedKey := aesGcmWrapKey wrappingKey iv src.privateKey.material
  let keyAlgorithm := src.privateKey.algorithm
  let payload := [saltLength % 256, ivLength % 256, keyAlgorithm.length % 256]
      ++ salt ++ iv ++ keyAlgorithm ++ wrappedKey
  { id := src.id, privateKey := payload, rpId := src.rpId,
    userHandle := src.userHandle, type := src.type }

/-- PublicKeyCredentialSource.import of auth_storage: parse the three
header bytes, slice out salt, IV and algorithm descriptor, re-derive
the wrapping key from the embedded salt and the pin handed to
getWrappingKey, and unwrap the remaining ciphertext; the reconstructed
key carries the embedded algorithm descriptor and usage sign only.
Unwrap failure surfaces as none (the opaque IntegrityFailure). -/
def PublicKeyCredentialSource.importJson (json : ExportedCredential)
    (pin : Bytes) : Option PublicKeyCredentialSource :=
  let keyPayload := json.privateKey
  let saltByteLength := keyPayload.getD 0 0
  let ivByteLength := keyPayload.getD 1 0
  let keyAlgorithmByteLength := keyPayload.getD 2 0
  let r1 := keyPayload.drop 3
  let salt := r1.take saltByteLength
  let r2 := r1.drop saltByteLength
  let iv := r2.take ivByteLength
  let r3 := r2.drop ivByteLength
  let keyAlgorithmBytes := r3.take keyAlgorithmByteLength
  let keyBytes := r3.drop keyAlgorithmByteLength
  let wrappingKey := getWrappingKey pin salt
  match aesGcmUnwrapKey wrappingKey iv keyBytes with
  | some material =>
      some { id := json.id,
             privateKey := { algorithm := keyAlgorithmBytes, material := material,
                             usages := ["sign"] },
             rpId := json.rpId, userHandle := json.userHandle, type := "public-key" }
  | none => none

/-- A pooled one-time key of webauthn_psk (backup or recovery key):
the key and its id (ids are base64url strings, kept as bytes). -/
structure PSKKey where
  key : CryptoKey
  id : Bytes
deriving DecidableEq

/-- A delegation record of webauthn_psk, binding the original backup
credential id to a replacement recovery key id and public key, plus a
signature supposedly authorizing the substitution. -/
structure Delegation where
  signature : Bytes
  backupId : Bytes
  replacementId : Bytes
  replacementKey : CryptoKey
deriving DecidableEq

/-- Typed failures of the flows (the taxonomy of spec section 7). The
source mostly throws untyped errors; each constructor here is the
spec's label for the corresponding failure site. -/
inductive FlowError where
  | poolExhausted
  | duplicateCredential
  | noCompatibleAlgorithm
  | credentialNotFound
  | delegationNotFound
  | recoveryKeyNotFound
  | invalidRequest
deriving DecidableEq

/-- popPSKKey of webauthn_psk: fetch the pool, fail if it is empty
(the thrown no-key-available error, the spec's PoolExhausted), else
remove the last element, persist the remainder and return the popped
key together with the persisted remainder. -/
def popPSKKey (pskKeys : List PSKKey) : Except FlowError (PSKKey × List PSKKey) :=
  match pskKeys.getLast? with
  | none => .error .poolExhausted
  | some key => .ok (key, pskKeys.dropLast)

/-- popBackupKey of the older recovery.ts: fetch the pool, pop the last
element and persist the remainder, with no emptiness check; on an empty
pool the promise resolves with undefined (modelled as none) and the
empty pool is stored back. -/
def popBackupKeyLegacy (bckpKeys : List PSKKey) : Option PSKKey × List PSKKey :=
  (bckpKeys.getLast?, bckpKeys.dropLast)

/-- Repeated popping via popPSKKey: the list of keys returned by fuel
many successive pops, each pop acting on the pool the previous pop
persisted (stopping at PoolExhausted). -/
def drain : Nat → List PSKKey → List PSKKey
  | 0, _ => []
  | fuel + 1, pool =>
    match popPSKKey pool with
    | .error _ => []
    | .ok (key, rest) => key :: drain fuel rest

/-- A record of the credential key-value store: a wrapped private key
persisted under a credential id. -/
structure StoredKey where
  id : Bytes
  pin : Bytes
  key : CryptoKey
deriving DecidableEq

/-- Modelled from the spec: storage.ts (saveKey, fetchKey, keyExists)
is not under src/. keyExists: whether any record with this credential
id exists in the local store (ids are global, not per relying party). -/
def keyExists (store : List StoredKey) (id : Bytes) : Bool :=
  store.any (fun e => e.id = id)

/-- Modelled from the spec: storage.ts is not under src/. saveKey wraps
the private key under the supplied pin with the key-wrap codec and
persists it under the credential id. -/
def saveKey (store : List StoredKey) (id : Bytes) (key : CryptoKey) (pin : Bytes) :
    List StoredKey :=
  store ++ [{ id := id, pin := pin, key := key }]

/-- Modelled from the spec: storage.ts is not under src/. fetchKey
loads the wrapped payload stored under the credential id and unwraps it
with the supplied pin; absence or unwrap failure (which per the codec
occurs exactly when the pins differ) both yield a failure, modelled as
none. -/
def fetchKey (store : List StoredKey) (id pin : Bytes) : Option CryptoKey :=
  match store.find? (fun e => e.id = id) with
  | none => none
  | some e => if e.pin = pin then some e.key else none

/-- Modelled from the spec: utils.ts is not under src/. Helper for
getDomainFromOrigin: drop everything up to and including the first
scheme separator. -/
def dropScheme : List Char → List Char
  | [] => []
  | '/' :: '/' :: rest => rest
  | _ :: rest => dropScheme rest

/-- Modelled from the spec: utils.ts is not under src/. The relying
party identifier derived from an origin URL is its host part. -/
def getDomainFromOrigin (origin : String) : String :=
  String.mk ((dropScheme origin.data).takeWhile (fun c => c ≠ ':' ∧ c ≠ '/'))

/-- Modelled from the spec: crypto.ts is not under src/. SHA-256,
represented by an injective digest function on byte lists. -/
def sha256 (b : Bytes) : Bytes := b

/-- Big-endian 32-bit encoding of the signature counter. -/
def be32 (n : Nat) : Bytes :=
  [n / 16777216 % 256, n / 65536 % 256, n / 256 % 256, n % 256]

/-- Modelled from the spec: crypto.ts is not under src/. COSE encoding
of a key's public half, represented by an injective encoding of the
key. -/
def toCOSE (key : CryptoKey) : Bytes := lenTag key.algorithm ++ key.material

/-- Modelled from the spec: crypto.ts is not under src/. Authenticator
data layout: rpIdHash, flags, big-endian signature counter, the
length-tagged credential id, the attached COSE public key when a
credential id is present, and the optional CBOR extension bytes. -/
def generateAuthenticatorData (key : CryptoKey) (rpId : String) (counter : Nat)
    (credId : Bytes) (ext : Option Bytes) : Bytes :=
  sha256 (strToBytes rpId) ++ [1] ++ be32 counter ++ lenTag credId
    ++ (if credId.isEmpty then [] else toCOSE key) ++ ext.getD []

/-- Client data: challenge, origin, optional token binding status and
the operation type, serialized to JSON by the flows. -/
structure ClientData where
  challenge : Bytes
  origin : String
  tokenBinding : Option String
  type : String
deriving DecidableEq

/-- Modelled from the spec: crypto.ts is not under src/. Client data
construction from the challenge and the request context. -/
def generateClientData (challenge : Bytes) (origin : String)
    (tokenBinding : Option String) (type : String) : ClientData :=
  { challenge := challenge, origin := origin, tokenBinding := tokenBinding,
    type := type }

/-- Injective JSON/base64 serialization of client data into bytes. -/
def encodeClientData (cd : ClientData) : Bytes :=
  lenTag cd.challenge ++ lenTag (strToBytes cd.origin)
    ++ lenTag (strToBytes (cd.tokenBinding.getD "")) ++ strToBytes cd.type

/-- Modelled from the spec: crypto.ts is not under src/. Signature
production, represented as a deterministic function of the signing key
and the signed data. -/
def sign (key : CryptoKey) (data : Bytes) : Bytes := lenTag key.material ++ data

/-- Modelled from the spec: crypto.ts is not under src/. The COSE
algorithm identifiers this authenticator supports (ES256). -/
def supportedCOSEAlgorithms : List Int := [-7]

/-- Modelled from the spec: crypto.ts is not under src/. Capability
negotiation of getCompatibleKey: pick the first mutually supported COSE
algorithm identifier of the relying party's requested parameters and
generate a fresh key pair for it (the freshly generated randomness is
the freshKey argument); no mutually supported algorithm is a failure. -/
def getCompatibleKey (pubKeyCredParams : List Int) (freshKey : CryptoKey) :
    Option (Int × CryptoKey) :=
  match pubKeyCredParams.find? (fun a => supportedCOSEAlgorithms.contains a) with
  | some alg => some (alg, freshKey)
  | none => none

/-- pskSetupExtensionOutput of webauthn_psk: CBOR-encode a single-entry
map binding the PSK extension key to the COSE encoding of the backup
key's public key. -/
def pskSetupExtensionOutput (backupKey : PSKKey) : Bytes :=
  strToBytes PSK ++ lenTag (toCOSE backupKey.key)

/-- The persisted state the engine operates over: the credential store
of wrapped keys, the two one-time key pools and the delegation list. -/
structure AuthState where
  keyStore : List StoredKey
  backupPool : List PSKKey
  recoveryPool : List PSKKey
  delegations : List Delegation
deriving DecidableEq

/-- The attestation object: fmt (always none, with an empty attStmt)
and the authenticator data. -/
structure AttestationObject where
  fmt : String
  authData : Bytes
deriving DecidableEq

/-- Credential-creation response of webauthn.ts. -/
structure AttestationResponse where
  id : Bytes
  rawId : Bytes
  attestationObject : AttestationObject
  clientDataJSON : Bytes
deriving DecidableEq

/-- Assertion response of webauthn.ts and of the recover flow. -/
structure AssertionResponse where
  id : Bytes
  rawId : Bytes
  authenticatorData : Bytes
  clientDataJSON : Bytes
  signature : Bytes
  userHandle : Bytes
deriving DecidableEq

/-- Outcome of the creation flow: the null return (unsupported
attestation), a typed failure, or a response together with the state
as persisted when the outcome was produced. -/
inductive CreationOutcome where
  | nullRes
  | failure (e : FlowError) (st : AuthState)
  | success (resp : AttestationResponse) (st : AuthState)
deriving DecidableEq

/-- Outcome of the assertion flows, analogous to CreationOutcome. -/
inductive RequestOutcome where
  | nullRes
  | failure (e : FlowError) (st : AuthState)
  | success (resp : AssertionResponse) (st : AuthState)
deriving DecidableEq

/-- Whether an assertion outcome is a produced credential response. -/
def RequestOutcome.isSuccess : RequestOutcome → Bool
  | .success _ _ => true
  | _ => false

/-- The state persisted by an assertion outcome, when one exists. -/
def RequestOutcome.stateAfter : RequestOutcome → Option AuthState
  | .success _ st => some st
  | .failure _ st => some st
  | .nullRes => none

/-- The backup pool as persisted by a creation outcome. -/
def CreationOutcome.backupPoolAfter : CreationOutcome → Option (List PSKKey)
  | .success _ st => some st.backupPool
  | .failure _ st => some st.backupPool
  | .nullRes => none

/-- The credential id of a successful creation response. -/
def CreationOutcome.credentialId : CreationOutcome → Option Bytes
  | .success resp _ => some resp.id
  | _ => none

/-- Creation options (the fields of PublicKeyCredentialCreationOptions
the flow reads): attestation conveyance, the extension keys present in
the request's extension map (none models an absent map), rp.id, the
requested COSE algorithms and the challenge. -/
structure CreationOptions where
  attestation : String
  extensions : Option (List String)
  rpId : Option String
  pubKeyCredParams : List Int
  challenge : Bytes
deriving DecidableEq

/-- Request options (the fields of PublicKeyCredentialRequestOptions
the flows read): the offered credential ids (none models an absent
allowCredentials), the extension keys present, rpId and challenge. -/
structure RequestOptions where
  allowCredentials : Option (List Bytes)
  extensions : Option (List String)
  rpId : Option String
  challenge : Bytes
deriving DecidableEq

/-- getDelegation of webauthn_psk: filter the persisted delegation list
by backupId, and if any record matched return the first element of the
whole list (the source indexes the unfiltered array); no match is
null. -/
def getDelegation (delegations : List Delegation) (credentialId : Bytes) :
    Option Delegation :=
  let recMatches := delegations.filter (fun x => x.backupId = credentialId)
  if recMatches.length ≠ 0 then delegations.head? else none

/-- getRecoveryKey of webauthn_psk: first element of the recovery pool
filtered by id; no match is null. -/
def getRecoveryKey (recoveryPool : List PSKKey) (credentialId : Bytes) :
    Option PSKKey :=
  let rk := recoveryPool.filter (fun x => x.id = credentialId)
  if rk.length ≠ 0 then rk.head? else none

/-- getRecoveryOptions of webauthn_psk: resolve the delegation for the
backup credential id, then the recovery key for its replacement id. A
missing delegation makes the source dereference null and reject, the
failure the spec labels DelegationNotFound; a missing recovery key
likewise rejects downstream. -/
def getRecoveryOptions (st : AuthState) (backupCredentialId : Bytes) :
    Except FlowError (PSKKey × Delegation) :=
  match getDelegation st.delegations backupCredentialId with
  | none => .error .delegationNotFound
  | some del =>
    match getRecoveryKey st.recoveryPool del.replacementId with
    | none => .error .recoveryKeyNotFound
    | some rk => .ok (rk, del)

/-- RecoveryMessage of webauthn_psk: backup credential id, delegation
signature, and an attestation object over authenticator data for the
replacement credential id (the source passes the origin where the rpId
is expected). -/
structure RecoveryMessage where
  backupCredId : Bytes
  delegationSignature : Bytes
  attestationObject : AttestationObject
deriving DecidableEq

/-- RecoveryMessage.init of webauthn_psk. -/
def recoveryMessageInit (delegation : Delegation) (rkPub : CryptoKey)
    (origin : String) : RecoveryMessage :=
  let recoveryCredId := delegation.replacementId
  let authData := generateAuthenticatorData rkPub origin 0 recoveryCredId none
  { backupCredId := delegation.backupId,
    delegationSignature := delegation.signature,
    attestationObject := { fmt := "none", authData := authData } }

/-- The recover flow of webauthn_psk. The caller-supplied origin is
immediately overwritten with the fixed localhost value; only the first
offered credential id is considered; the delegation and recovery key
are resolved, a recovery message is built and discarded (never
verified), the recovery private key is persisted under the caller's
pin, and a signed assertion under the recovery key is returned. -/
def recover (origin : String) (opts : RequestOptions) (pin : Bytes)
    (st : AuthState) : RequestOutcome :=
  match opts.allowCredentials with
  | none => .nullRes
  | some allow =>
    let origin := "http://localhost:9005"
    match allow.head? with
    | none => .failure .invalidRequest st
    | some backupCredId =>
      match getRecoveryOptions st backupCredId with
      | .error e => .failure e st
      | .ok (recoveryKey, delegation) =>
        let rkPrv := recoveryKey.key
        let rkPub := delegation.replacementKey
        let _recMessage := recoveryMessageInit delegation rkPub origin
        let keyStoreAfterSave := saveKey st.keyStore recoveryKey.id rkPrv pin
        let clientData := generateClientData opts.challenge origin
            (some "not-supported") "webauthn.get"
        let clientDataJSON := encodeClientData clientData
        let clientDataHash := sha256 clientDataJSON
        let rpID := opts.rpId.getD (getDomainFromOrigin origin)
        let authenticatorData := generateAuthenticatorData rkPrv rpID 0 [] none
        let signature := sign rkPrv (authenticatorData ++ clientDataHash)
        .success
          { id := recoveryKey.id, rawId := recoveryKey.id,
            authenticatorData := authenticatorData,
            clientDataJSON := clientDataJSON,
            signature := signature, userHandle := [] }
          { st with keyStore := keyStoreAfterSave }

/-- The early-exit candidate scan of processCredentialRequest: walk the
offered credential ids in the caller's order and return the first one
that fetches and unwraps with the supplied pin, together with its key;
failures at a candidate (absence or unwrap failure) move on to the next
candidate. -/
def scanCandidates (store : List StoredKey) (pin : Bytes) :
    List Bytes → Option (Bytes × CryptoKey)
  | [] => none
  | credId :: rest =>
    match fetchKey store credId pin with
    | some key => some (credId, key)
    | none => scanCandidates store pin rest

/-- processCredentialRequest of webauthn.ts: null if no credential ids
are offered; delegate to recover if the PSK extension is signaled;
otherwise scan the offered ids and sign with the first stored key that
unwraps, failing with CredentialNotFound when none does. -/
def processCredentialRequest (origin : String) (opts : RequestOptions)
    (pin : Bytes) (st : AuthState) : RequestOutcome :=
  match opts.allowCredentials with
  | none => .nullRes
  | some allow =>
    if (opts.extensions.getD []).contains PSK then recover origin opts pin st
    else
      match scanCandidates st.keyStore pin allow with
      | none => .failure .credentialNotFound st
      | some (credId, key) =>
        let rpID := opts.rpId.getD (getDomainFromOrigin origin)
        let clientData := generateClientData opts.challenge origin
            (some "not-supported") "webauthn.get"
        let clientDataJSON := encodeClientData clientData
        let clientDataHash := sha256 clientDataJSON
        let authenticatorData := generateAuthenticatorData key rpID 0 [] none
        let signature := sign key (authenticatorData ++ clientDataHash)
        .success
          { id := credId, rawId := credId,
            authenticatorData := authenticatorData,
            clientDataJSON := clientDataJSON,
            signature := signature, userHandle := [] } st

/-- processCredentialCreation of webauthn.ts: null unless attestation
is exactly none; detect the PSK extension; pop a backup key from the
pool unconditionally (the popped pool is persisted at once) and use its
id as the credential id; fail with DuplicateCredential if that id
already exists anywhere in the store; negotiate a fresh compatible key;
embed the PSK extension output only when the extension was requested;
build authenticator data, client data and the attestation object, and
persist the fresh private key under the credential id. -/
def processCredentialCreation (origin : String) (opts : CreationOptions)
    (pin : Bytes) (st : AuthState) (freshKey : CryptoKey) : CreationOutcome :=
  if opts.attestation ≠ "none" then .nullRes
  else
    let supportRecovery := (opts.extensions.getD []).contains PSK
    let rpID := opts.rpId.getD (getDomainFromOrigin origin)
    match popPSKKey st.backupPool with
    | .error e => .failure e st
    | .ok (bckpKey, poolRest) =>
      let st1 := { st with backupPool := poolRest }
      let credId := bckpKey.id
      let encCredId := credId
      if keyExists st1.keyStore encCredId then .failure .duplicateCredential st1
      else
        match getCompatibleKey opts.pubKeyCredParams freshKey with
        | none => .failure .noCompatibleAlgorithm st1
        | some (_alg, compatibleKey) =>
          let extOutput := if supportRecovery
              then some (pskSetupExtensionOutput bckpKey) else none
          let authenticatorData :=
            generateAuthenticatorData compatibleKey rpID 0 credId extOutput
          let clientData := generateClientData opts.challenge origin none
              "webauthn.create"
          let attestationObject : AttestationObject :=
            { fmt := "none", authData := authenticatorData }
          let st2 := { st1 with
            keyStore := saveKey st1.keyStore encCredId compatibleKey pin }
          .success
            { id := encCredId, rawId := credId,
              attestationObject := attestationObject,
              clientDataJSON := encodeClientData clientData } st2

/-- The abstract chrome.storage.local key-value store. -/
abbrev LocalStorage := List (String × String)

/-- Raw lookup in the local store. -/
def storageGet (storage : LocalStorage) (key : String) : Option String :=
  (storage.find? (fun p => p.1 = key)).map (fun p => p.2)

/-- The response object chrome.storage.local.get builds for a query
with a default: it holds exactly the requested key, mapped to the
stored value or to the supplied null default. -/
def respFor (storage : LocalStorage) (key : String) :
    List (String × Option String) :=
  [(key, storageGet storage key)]

/-- Property access on a response object: none models a property that
is not present (undefined), some none models a stored null. -/
def respIndex (resp : List (String × Option String)) (key : String) :
    Option (Option String) :=
  (resp.find? (fun p => p.1 = key)).map (fun p => p.2)

/-- PSKStorage.getBDEndpoint of auth_storage: query the local store for
the BD_ENDPOINT key with a null default, but then inspect the response
at the BACKUP_KEY property (as the source does); undefined and null
both compare equal to null and yield the hardcoded default endpoint. -/
def getBDEndpoint (storage : LocalStorage) : String :=
  let resp := respFor storage BD_ENDPOINT
  match respIndex resp BACKUP_KEY with
  | none => DEFAULT_BD_ENDPOINT
  | some none => DEFAULT_BD_ENDPOINT
  | some (some v) => v

/-- PSKStorage.setBDEndpoint of auth_storage: store the endpoint under
the BD_ENDPOINT key. -/
def setBDEndpoint (storage : LocalStorage) (endpoint : String) : LocalStorage :=
  (BD_ENDPOINT, endpoint) :: storage.filter (fun p => p.1 ≠ BD_ENDPOINT)

/-- Unwrapping with the wrapping key and IV a payload was wrapped with
recovers the wrapped material. -/
lemma aesGcm_roundtrip (wk : WrappingKey) (iv m : Bytes) :
    aesGcmUnwrapKey wk iv (aesGcmWrapKey wk iv m) = some m := by
  simp only [aesGcmUnwrapKey, aesGcmWrapKey]
  rw [List.take_left, if_pos rfl, List.drop_left]

/-- Unwrapping with a key derived from a different pin always fails
authentication, whatever the wrapped material. -/
lemma aesGcm_unwrap_wrong_pin (p1 p2 s iv m : Bytes) (h : p1 ≠ p2) :
    aesGcmUnwrapKey (getWrappingKey p2 s) iv
      (aesGcmWrapKey (getWrappingKey p1 s) iv m) = none := by
  simp only [aesGcmUnwrapKey, aesGcmWrapKey, getWrappingKey]
  split
  next heq =>
    exfalso
    apply h
    have hpre : lenTag p2 ++ lenTag s ++ lenTag iv
        <+: lenTag p1 ++ lenTag s ++ lenTag iv ++ m :=
      List.prefix_iff_eq_take.mpr heq.symm
    obtain ⟨r, hr⟩ := hpre
    simp only [lenTag, List.cons_append, List.append_assoc, List.cons.injEq] at hr
    exact ((List.append_inj hr.2 hr.1).1).symm
  next => rfl

/-- The payload bytes produced by export, in explicit layout form. -/
lemma exportJson_payload (src : PublicKeyCredentialSource) (pin salt iv : Bytes) :
    (src.exportJson pin salt iv).privateKey
      = (saltLength % 256) :: (ivLength % 256)
        :: (src.privateKey.algorithm.length % 256)
        :: (salt ++ (iv ++ (src.privateKey.algorithm
              ++ aesGcmWrapKey (getWrappingKey pin salt) iv
                   src.privateKey.material))) := by
  simp [PublicKeyCredentialSource.exportJson, List.append_assoc]

/-- Parsing a payload in explicit layout form slices the segments back
exactly and reduces import to unwrapping the trailing ciphertext with
the key derived from the import pin and the embedded salt. -/
lemma importJson_parse (j : ExportedCredential) (pin salt iv alg ct : Bytes)
    (hp : j.privateKey
      = salt.length :: iv.length :: alg.length :: (salt ++ (iv ++ (alg ++ ct)))) :
    PublicKeyCredentialSource.importJson j pin
      = match aesGcmUnwrapKey (getWrappingKey pin salt) iv ct with
        | some material =>
            some { id := j.id,
                   privateKey := { algorithm := alg, material := material,
                                   usages := ["sign"] },
                   rpId := j.rpId, userHandle := j.userHandle,
                   type := "public-key" }
        | none => none := by
  simp only [PublicKeyCredentialSource.importJson, hp,
    List.getD_cons_zero, List.getD_cons_succ,
    List.drop_succ_cons, List.drop_zero]
  rw [List.take_left, List.drop_left, List.take_left, List.drop_left,
    List.take_left, List.drop_left]

/-- Importing an exported credential reduces to unwrapping the embedded
ciphertext with the key derived from the import pin and the embedded
salt. -/
lemma importJson_exportJson (src : PublicKeyCredentialSource)
    (pin1 pin2 salt iv : Bytes)
    (hs : salt.length = saltLength) (hi : iv.length = ivLength)
    (ha : src.privateKey.algorithm.length < 256) :
    PublicKeyCredentialSource.importJson (src.exportJson pin1 salt iv) pin2
      = match aesGcmUnwrapKey (getWrappingKey pin2 salt) iv
              (aesGcmWrapKey (getWrappingKey pin1 salt) iv
                 src.privateKey.material) with
        | some material =>
            some { id := src.id,
                   privateKey := { algorithm := src.privateKey.algorithm,
                                   material := material, usages := ["sign"] },
                   rpId := src.rpId, userHandle := src.userHandle,
                   type := "public-key" }
        | none => none := by
  have e1 : saltLength % 256 = salt.length := by rw [hs]; decide
  have e2 : ivLength % 256 = iv.length := by rw [hi]; decide
  have e3 : src.privateKey.algorithm.length % 256
      = src.privateKey.algorithm.length := Nat.mod_eq_of_lt ha
  have hp : (src.exportJson pin1 salt iv).privateKey
      = salt.length :: iv.length :: src.privateKey.algorithm.length
        :: (salt ++ (iv ++ (src.privateKey.algorithm
              ++ aesGcmWrapKey (getWrappingKey pin1 salt) iv
                   src.privateKey.material))) := by
    rw [exportJson_payload, e1, e2, e3]
  rw [importJson_parse (src.exportJson pin1 salt iv) pin2 salt iv
    src.privateKey.algorithm
    (aesGcmWrapKey (getWrappingKey pin1 salt) iv src.privateKey.material) hp]
  rfl

/-- C2: for every signing key and every pair of distinct PINs,
unwrapping the payload produced by wrapping under the first PIN using
the second PIN fails with the single opaque authentication failure
(IntegrityFailure, modelled as none) and never yields a key. The salt
and IV are the freshly generated random values of the configured
lengths, and the algorithm descriptor fits its single header byte. -/
theorem C2_unwrap_wrong_pin_fails (src : PublicKeyCredentialSource)
    (pin1 pin2 salt iv : Bytes) (hp : pin1 ≠ pin2)
    (hs : salt.length = saltLength) (hi : iv.length = ivLength)
    (ha : src.privateKey.algorithm.length < 256) :
    PublicKeyCredentialSource.importJson (src.exportJson pin1 salt iv) pin2
      = none := by
  rw [importJson_exportJson src pin1 pin2 salt iv hs hi ha,
    aesGcm_unwrap_wrong_pin pin1 pin2 salt iv src.privateKey.material hp]

/-- C2 witness: a concrete key wrapped under PIN bytes 1 and unwrapped
with PIN bytes 2 yields the opaque failure. -/
theorem C2_unwrap_wrong_pin_fails_witness :
    PublicKeyCredentialSource.importJson
      (PublicKeyCredentialSource.exportJson
        { id := [1], privateKey := { algorithm := [65, 66], material := [7, 8, 9],
                                     usages := ["sign"] },
          rpId := "example.com", userHandle := none, type := "public-key" }
        [1] (List.replicate 16 0) (List.replicate 12 0)) [2] = none :=
  C2_unwrap_wrong_pin_fails
    { id := [1], privateKey := { algorithm := [65, 66], material := [7, 8, 9],
                                 usages := ["sign"] },
      rpId := "example.com", userHandle := none, type := "public-key" }
    [1] [2] (List.replicate 16 0) (List.replicate 12 0)
    (by decide) (by decide) (by decide) (by decide)

/-- C5: wrap then unwrap under the same PIN yields the key back with
the same material, the identical algorithm descriptor and the sign
usage, and the three header length bytes of the persisted payload
exactly match the lengths of the salt, IV and algorithm-descriptor
segments that follow them. -/
theorem C5_roundtrip_and_header (src : PublicKeyCredentialSource)
    (pin salt iv : Bytes)
    (hs : salt.length = saltLength) (hi : iv.length = ivLength)
    (ha : src.privateKey.algorithm.length < 256) :
    PublicKeyCredentialSource.importJson (src.exportJson pin salt iv) pin
      = some { id := src.id,
               privateKey := { algorithm := src.privateKey.algorithm,
                               material := src.privateKey.material,
                               usages := ["sign"] },
               rpId := src.rpId, userHandle := src.userHandle,
               type := "public-key" }
    ∧ (src.exportJson pin salt iv).privateKey
      = salt.length :: iv.length :: src.privateKey.algorithm.length
        :: (salt ++ (iv ++ (src.privateKey.algorithm
              ++ aesGcmWrapKey (getWrappingKey pin salt) iv
                   src.privateKey.material))) := by
  constructor
  · rw [importJson_exportJson src pin pin salt iv hs hi ha,
      aesGcm_roundtrip (getWrappingKey pin salt) iv src.privateKey.material]
  · rw [exportJson_payload]
    rw [show saltLength % 256 = salt.length from by rw [hs]; decide]
    rw [show ivLength % 256 = iv.length from by rw [hi]; decide]
    rw [Nat.mod_eq_of_lt ha]

/-- C5 witness: the round trip on a concrete key and PIN. -/
theorem C5_roundtrip_and_header_witness :
    (PublicKeyCredentialSource.importJson
      (PublicKeyCredentialSource.exportJson
        { id := [1], privateKey := { algorithm := [65, 66], material := [7, 8, 9],
                                     usages := ["sign"] },
          rpId := "example.com", userHandle := none, type := "public-key" }
        [3] (List.replicate 16 0) (List.replicate 12 0)) [3]).isSome = true := by
  have h := C5_roundtrip_and_header
    { id := [1], privateKey := { algorithm := [65, 66], material := [7, 8, 9],
                                 usages := ["sign"] },
      rpId := "example.com", userHandle := none, type := "public-key" }
    [3] (List.replicate 16 0) (List.replicate 12 0)
    (by decide) (by decide) (by decide)
  rw [h.1]
  rfl

/-- C10: the set-then-get round trip fails. getBDEndpoint queries the
store for the endpoint key but inspects the response at the backup-key
property, which is never present in that response, so it returns the
hardcoded default even right after a successful setBDEndpoint; only the
never-stored half of the claim holds. -/
theorem C10_getBDEndpoint_ignores_stored_endpoint :
    getBDEndpoint [] = DEFAULT_BD_ENDPOINT
    ∧ getBDEndpoint (setBDEndpoint [] "https://bd.example.org")
        = DEFAULT_BD_ENDPOINT
    ∧ "https://bd.example.org" ≠ DEFAULT_BD_ENDPOINT := by
  refine ⟨rfl, rfl, ?_⟩
  decide

/-- C4: delegation lookup does not return the first matching record.
With two stored delegations whose backup ids are the byte strings 97
and 98, looking up 98 returns the delegation for 97: the source filters
by backupId but then indexes the unfiltered list. -/
theorem C4_getDelegation_returns_first_of_whole_list :
    getDelegation
      [ { signature := [0], backupId := [97], replacementId := [1],
          replacementKey := { algorithm := [1], material := [2], usages := [] } },
        { signature := [0], backupId := [98], replacementId := [2],
          replacementKey := { algorithm := [1], material := [3], usages := [] } } ]
      [98]
      = some { signature := [0], backupId := [97], replacementId := [1],
               replacementKey := { algorithm := [1], material := [2],
                                   usages := [] } }
    ∧ (getDelegation
        [ { signature := [0], backupId := [97], replacementId := [1],
            replacementKey := { algorithm := [1], material := [2], usages := [] } },
          { signature := [0], backupId := [98], replacementId := [2],
            replacementKey := { algorithm := [1], material := [3], usages := [] } } ]
        [98]).map Delegation.backupId = some [97]
    ∧ ([97] : Bytes) ≠ [98] := by
  refine ⟨rfl, rfl, ?_⟩
  decide

/-- The recovery private key of the C1 scenario. -/
def rkKeyC1 : CryptoKey := { algorithm := [1], material := [11], usages := ["sign"] }

/-- The pooled recovery key of the C1 scenario. -/
def rkC1 : PSKKey := { key := rkKeyC1, id := [31] }

/-- The delegation of the C1 scenario, with an arbitrary signature. -/
def delC1 (sig : Bytes) : Delegation :=
  { signature := sig, backupId := [21], replacementId := [31],
    replacementKey := { algorithm := [1], material := [12], usages := [] } }

/-- The request of the C1 scenario: PSK signaled, offering the backup
credential id the delegation is recorded for. -/
def optsC1 : RequestOptions :=
  { allowCredentials := some [[21]], extensions := some [PSK],
    rpId := some "rp.example", challenge := [5] }

/-- The store state of the C1 scenario. -/
def stC1 (sig : Bytes) : AuthState :=
  { keyStore := [], backupPool := [], recoveryPool := [rkC1],
    delegations := [delC1 sig] }

/-- C1: the recover flow never verifies the delegation signature.
Whatever the signature bytes are, including garbage no key ever signed,
recovery succeeds: the recovery key is persisted as a credential and a
signed assertion is produced, instead of the required
DelegationUnverified failure. -/
theorem C1_recover_ignores_delegation_signature : ∀ sig : Bytes,
    (recover "https://rp.example" optsC1 [9] (stC1 sig)).isSuccess = true
    ∧ (recover "https://rp.example" optsC1 [9] (stC1 sig)).stateAfter
      = some { stC1 sig with
               keyStore := [{ id := [31], pin := [9], key := rkKeyC1 }] } :=
  fun _ => ⟨rfl, rfl⟩

/-- C9: the recover flow is independent of the caller-supplied origin:
any two origins produce identical outcomes, and the client data of a
successful recovery carries the fixed localhost override origin. -/
theorem C9_recover_origin_independent :
    (∀ (o1 o2 : String) (opts : RequestOptions) (pin : Bytes) (st : AuthState),
      recover o1 opts pin st = recover o2 opts pin st)
    ∧ (∀ (o : String) (opts : RequestOptions) (pin : Bytes) (st : AuthState)
        (resp : AssertionResponse) (st2 : AuthState),
        recover o opts pin st = .success resp st2 →
        resp.clientDataJSON = encodeClientData
          { challenge := opts.challenge, origin := "http://localhost:9005",
            tokenBinding := some "not-supported", type := "webauthn.get" }) := by
  constructor
  · intro o1 o2 opts pin st
    rfl
  · intro o opts pin st resp st2 h
    simp only [recover] at h
    split at h
    · exact RequestOutcome.noConfusion h
    · split at h
      · exact RequestOutcome.noConfusion h
      · split at h
        · exact RequestOutcome.noConfusion h
        · injection h with h1 h2
          rw [← h1]
          rfl

/-- The recovery key of the C9 scenario. -/
def rkC9 : PSKKey :=
  { key := { algorithm := [2], material := [13], usages := ["sign"] }, id := [33] }

/-- The store state of the C9 scenario. -/
def stC9 : AuthState :=
  { keyStore := [], backupPool := [], recoveryPool := [rkC9],
    delegations := [{ signature := [1], backupId := [23], replacementId := [33],
                      replacementKey := { algorithm := [2], material := [14],
                                          usages := [] } }] }

/-- The request of the C9 scenario. -/
def optsC9 : RequestOptions :=
  { allowCredentials := some [[23]], extensions := some [PSK],
    rpId := none, challenge := [6] }

/-- C9 witness: two concrete distinct origins produce the same outcome
on a concrete recovery, whose client data holds the override origin. -/
theorem C9_recover_origin_independent_witness :
    recover "https://a.example" optsC9 [9] stC9
      = recover "https://b.example" optsC9 [9] stC9
    ∧ ∃ (resp : AssertionResponse) (st2 : AuthState),
        recover "https://a.example" optsC9 [9] stC9 = .success resp st2
        ∧ resp.clientDataJSON = encodeClientData
            { challenge := [6], origin := "http://localhost:9005",
              tokenBinding := some "not-supported", type := "webauthn.get" } := by
  have h := C9_recover_origin_independent
  constructor
  · exact h.1 "https://a.example" "https://b.example" optsC9 [9] stC9
  · obtain ⟨resp, st2, hrec⟩ :
        ∃ resp st2, recover "https://a.example" optsC9 [9] stC9
          = .success resp st2 := ⟨_, _, rfl⟩
    exact ⟨resp, st2, hrec, h.2 "https://a.example" optsC9 [9] stC9 resp st2 hrec⟩

/-- Inversion of a successful pop: the popped key is the last element
and the persisted remainder is the pool without it. -/
lemma popPSKKey_ok_inv {pool : List PSKKey} {k : PSKKey} {rest : List PSKKey}
    (h : popPSKKey pool = .ok (k, rest)) :
    pool.getLast? = some k ∧ rest = pool.dropLast ∧ pool = pool.dropLast ++ [k] := by
  unfold popPSKKey at h
  cases hl : pool.getLast? with
  | none => rw [hl] at h; exact Except.noConfusion h
  | some k2 =>
    rw [hl] at h
    injection h with h1
    injection h1 with hk hrest
    subst hk
    subst hrest
    refine ⟨rfl, rfl, ?_⟩
    have hne : pool ≠ [] := by
      intro he
      rw [he] at hl
      exact Option.noConfusion hl
    have hlast : pool.getLast hne = k2 := by
      have h2 := List.getLast?_eq_getLast pool hne
      rw [hl] at h2
      exact (Option.some.inj h2).symm
    have h3 := List.dropLast_append_getLast hne
    rw [hlast] at h3
    exact h3.symm

/-- Every key a drain returns was in the pool it drained. -/
lemma drain_subset (fuel : Nat) :
    ∀ (pool : List PSKKey) (x : PSKKey), x ∈ drain fuel pool → x ∈ pool := by
  induction fuel with
  | zero =>
    intro pool x hx
    simp [drain] at hx
  | succ n ih =>
    intro pool x hx
    unfold drain at hx
    cases hpop : popPSKKey pool with
    | error e => rw [hpop] at hx; simp at hx
    | ok p =>
      obtain ⟨k, rest⟩ := p
      rw [hpop] at hx
      obtain ⟨hl, hrest, hdecomp⟩ := popPSKKey_ok_inv hpop
      rcases List.mem_cons.mp hx with hk | hmem
      · rw [hk, hdecomp]
        exact List.mem_append_right _ (List.mem_singleton.mpr rfl)
      · have hx2 : x ∈ rest := ih rest x hmem
        rw [hrest] at hx2
        rw [hdecomp]
        exact List.mem_append_left _ hx2

/-- Draining a pool whose ids are pairwise distinct never returns the
same id twice. -/
lemma drain_nodup (fuel : Nat) :
    ∀ pool : List PSKKey, (pool.map PSKKey.id).Nodup →
      ((drain fuel pool).map PSKKey.id).Nodup := by
  induction fuel with
  | zero =>
    intro pool _
    simp [drain]
  | succ n ih =>
    intro pool h
    unfold drain
    cases hpop : popPSKKey pool with
    | error e => simp
    | ok p =>
      obtain ⟨k, rest⟩ := p
      obtain ⟨hl, hrest, hdecomp⟩ := popPSKKey_ok_inv hpop
      have hpoolmap : ((pool.dropLast ++ [k]).map PSKKey.id).Nodup := by
        rw [← hdecomp]; exact h
      rw [List.map_append] at hpoolmap
      obtain ⟨hdrop, _, hdisj⟩ := List.nodup_append.mp hpoolmap
      simp only [List.map_cons, List.nodup_cons]
      constructor
      · intro hkmem
        obtain ⟨y, hy, hyid⟩ := List.mem_map.mp hkmem
        have hyrest : y ∈ rest := drain_subset n rest y hy
        have hydrop : y ∈ pool.dropLast := hrest ▸ hyrest
        have hkdrop : k.id ∈ pool.dropLast.map PSKKey.id := by
          rw [← hyid]
          exact List.mem_map.mpr ⟨y, hydrop, rfl⟩
        exact hdisj hkdrop (by simp)
      · apply ih
        rw [hrest]
        exact hdrop

/-- C7 counterexample: the popBackupKey of recovery.ts performs no
emptiness check; on an empty pool it resolves successfully, returning
no key and persisting the empty pool, instead of failing with
PoolExhausted as the claim states for every pool pop. -/
theorem C7_legacy_pop_empty_succeeds :
    popBackupKeyLegacy [] = ((none : Option PSKKey), ([] : List PSKKey)) := rfl

/-- C7 as amended: the PSK engine's popPSKKey removes and returns the
last element of a nonempty pool and persists the remaining n minus one
elements, fails with PoolExhausted on an empty pool, and across any
sequence of pops never returns the same id twice when the pool's ids
are pairwise distinct; the older popBackupKey of recovery.ts however
always pops without an emptiness check, so on an empty pool it
succeeds with no key rather than failing. -/
theorem C7_pop_contract :
    (∀ (pool : List PSKKey) (k : PSKKey), pool.getLast? = some k →
        popPSKKey pool = .ok (k, pool.dropLast)
        ∧ pool.dropLast.length = pool.length - 1
        ∧ pool = pool.dropLast ++ [k])
    ∧ popPSKKey ([] : List PSKKey) = .error .poolExhausted
    ∧ (∀ pool : List PSKKey,
        popBackupKeyLegacy pool = (pool.getLast?, pool.dropLast))
    ∧ (∀ (fuel : Nat) (pool : List PSKKey),
        (pool.map PSKKey.id).Nodup → ((drain fuel pool).map PSKKey.id).Nodup) := by
  refine ⟨?_, rfl, fun _ => rfl, fun fuel pool h => drain_nodup fuel pool h⟩
  intro pool k hl
  have hpop : popPSKKey pool = .ok (k, pool.dropLast) := by
    unfold popPSKKey
    rw [hl]
  obtain ⟨_, _, hdecomp⟩ := popPSKKey_ok_inv hpop
  exact ⟨hpop, List.length_dropLast pool, hdecomp⟩

/-- C7 witness: popping a concrete two-element pool returns the last
key and persists the first, and draining it returns distinct ids. -/
theorem C7_pop_contract_witness :
    popPSKKey
      [ { key := { algorithm := [1], material := [1], usages := [] }, id := [41] },
        { key := { algorithm := [1], material := [2], usages := [] }, id := [42] } ]
      = .ok
        ( { key := { algorithm := [1], material := [2], usages := [] }, id := [42] },
          [ { key := { algorithm := [1], material := [1], usages := [] },
              id := [41] } ])
    ∧ ((drain 2
        [ { key := { algorithm := [1], material := [1], usages := [] }, id := [41] },
          { key := { algorithm := [1], material := [2], usages := [] }, id := [42] } ]).map
            PSKKey.id).Nodup := by
  have h := C7_pop_contract
  constructor
  · exact (h.1
      [ { key := { algorithm := [1], material := [1], usages := [] }, id := [41] },
        { key := { algorithm := [1], material := [2], usages := [] }, id := [42] } ]
      { key := { algorithm := [1], material := [2], usages := [] }, id := [42] }
      rfl).1
  · exact h.2.2.2 2
      [ { key := { algorithm := [1], material := [1], usages := [] }, id := [41] },
        { key := { algorithm := [1], material := [2], usages := [] }, id := [42] } ]
      (by decide)

/-- Inversion of a successful capability negotiation. -/
lemma getCompatibleKey_some_inv {params : List Int} {fresh : CryptoKey}
    {alg : Int} {ck : CryptoKey}
    (h : getCompatibleKey params fresh = some (alg, ck)) :
    params.find? (fun a => supportedCOSEAlgorithms.contains a) = some alg
    ∧ ck = fresh := by
  unfold getCompatibleKey at h
  cases hf : params.find? (fun a => supportedCOSEAlgorithms.contains a) with
  | none => rw [hf] at h; exact Option.noConfusion h
  | some a =>
    rw [hf] at h
    injection h with h1
    injection h1 with ha hc
    subst ha
    exact ⟨rfl, hc.symm⟩

/-- Inversion of a successful credential creation: the backup key
popped from the pool is the pool's last element and the source of the
credential id, the popped pool is persisted, the freshly generated
compatible key is persisted under that id, the id was absent from the
store, and the extension output is embedded exactly when the PSK
extension was requested. -/
lemma creation_success_inv {origin : String} {opts : CreationOptions}
    {pin : Bytes} {st : AuthState} {freshKey : CryptoKey}
    {resp : AttestationResponse} {st2 : AuthState}
    (h : processCredentialCreation origin opts pin st freshKey
      = .success resp st2) :
    ∃ (bk : PSKKey) (alg : Int),
      st.backupPool.getLast? = some bk
      ∧ opts.pubKeyCredParams.find?
          (fun a => supportedCOSEAlgorithms.contains a) = some alg
      ∧ keyExists st.keyStore bk.id = false
      ∧ st2 = { st with
                backupPool := st.backupPool.dropLast,
                keyStore := saveKey st.keyStore bk.id freshKey pin }
      ∧ resp = { id := bk.id,
                 rawId := bk.id,
                 attestationObject :=
                   { fmt := "none",
                     authData := generateAuthenticatorData freshKey
                       (opts.rpId.getD (getDomainFromOrigin origin)) 0 bk.id
                       (if (opts.extensions.getD []).contains PSK
                        then some (pskSetupExtensionOutput bk) else none) },
                 clientDataJSON := encodeClientData
                   (generateClientData opts.challenge origin none
                     "webauthn.create") } := by
  simp only [processCredentialCreation] at h
  split at h
  · exact CreationOutcome.noConfusion h
  · split at h
    · exact CreationOutcome.noConfusion h
    · next bckpKey poolRest hpop =>
      split at h
      next hke => exact CreationOutcome.noConfusion h
      next hke =>
        split at h
        · exact CreationOutcome.noConfusion h
        · next alg ck hck =>
          obtain ⟨hl, hrest, _⟩ := popPSKKey_ok_inv hpop
          obtain ⟨hfind, hckf⟩ := getCompatibleKey_some_inv hck
          injection h with h1 h2
          subst hckf
          subst hrest
          exact ⟨bckpKey, alg, hl, hfind, Bool.eq_false_iff.mpr hke,
            h2.symm, h1.symm⟩

/-- The backup key of the C3 scenario. -/
def bkC3 : PSKKey :=
  { key := { algorithm := [1], material := [15], usages := [] }, id := [51] }

/-- The C3 creation request: attestation none, ES256 requested, and no
extensions at all (in particular no PSK). -/
def optsC3 : CreationOptions :=
  { attestation := "none", extensions := none, rpId := some "example.com",
    pubKeyCredParams := [-7], challenge := [8] }

/-- The store state of the C3 scenario: one backup key pooled. -/
def stC3 : AuthState :=
  { keyStore := [], backupPool := [bkC3], recoveryPool := [], delegations := [] }

/-- The fresh key pair generated during the C3 creation. -/
def freshC3 : CryptoKey := { algorithm := [7], material := [16], usages := ["sign"] }

/-- C3 counterexample: a creation request without the PSK extension
still consumes the pooled backup key (the pool shrinks to empty) and
derives the credential id from the backup key's id, refuting the claim
that no backup key is consumed and that the id comes from the fresh
key when the extension is absent. -/
theorem C3_counterexample_pop_without_psk :
    optsC3.extensions = none
    ∧ (processCredentialCreation "https://example.com" optsC3 [9] stC3
        freshC3).backupPoolAfter = some []
    ∧ (processCredentialCreation "https://example.com" optsC3 [9] stC3
        freshC3).credentialId = some bkC3.id := ⟨rfl, rfl, rfl⟩

/-- C3 as amended: every successful creation pops one backup key (the
last of the pool, the shrunk pool being persisted) whether or not the
PSK extension is present; the credential id is the backup key's id; a
fresh key pair for the first mutually supported COSE algorithm is
always generated and its private key persisted under that id; the PSK
extension's presence only controls whether the extension output is
embedded in the authenticator data. -/
theorem C3_creation_pops_backup_unconditionally
    (origin : String) (opts : CreationOptions) (pin : Bytes) (st : AuthState)
    (freshKey : CryptoKey) (resp : AttestationResponse) (st2 : AuthState)
    (h : processCredentialCreation origin opts pin st freshKey
      = .success resp st2) :
    ∃ (bk : PSKKey) (alg : Int),
      st.backupPool.getLast? = some bk
      ∧ st2.backupPool = st.backupPool.dropLast
      ∧ resp.id = bk.id
      ∧ resp.rawId = bk.id
      ∧ st2.keyStore = saveKey st.keyStore bk.id freshKey pin
      ∧ opts.pubKeyCredParams.find?
          (fun a => supportedCOSEAlgorithms.contains a) = some alg
      ∧ resp.attestationObject.authData
        = generateAuthenticatorData freshKey
            (opts.rpId.getD (getDomainFromOrigin origin)) 0 bk.id
            (if (opts.extensions.getD []).contains PSK
             then some (pskSetupExtensionOutput bk) else none) := by
  obtain ⟨bk, alg, hl, hfind, _, hst2, hresp⟩ := creation_success_inv h
  subst hst2
  subst hresp
  exact ⟨bk, alg, hl, rfl, rfl, rfl, rfl, hfind, rfl⟩

/-- C3 witness: the amended claim instantiated on a concrete
PSK-present creation. -/
theorem C3_creation_pops_backup_unconditionally_witness :
    ∃ (bk : PSKKey) (alg : Int),
      stC3.backupPool.getLast? = some bk
      ∧ (processCredentialCreation "https://example.com"
          { optsC3 with extensions := some [PSK] } [9] stC3 freshC3).credentialId
        = some bk.id
      ∧ optsC3.pubKeyCredParams.find?
          (fun a => supportedCOSEAlgorithms.contains a) = some alg := by
  obtain ⟨resp, st2, hrec⟩ :
      ∃ resp st2, processCredentialCreation "https://example.com"
        { optsC3 with extensions := some [PSK] } [9] stC3 freshC3
        = .success resp st2 := ⟨_, _, rfl⟩
  obtain ⟨bk, alg, hl, _, hid, _, _, hfind, _⟩ :=
    C3_creation_pops_backup_unconditionally "https://example.com"
      { optsC3 with extensions := some [PSK] } [9] stC3 freshC3 resp st2 hrec
  refine ⟨bk, alg, hl, ?_, hfind⟩
  rw [hrec]
  simp [CreationOutcome.credentialId, hid]

/-- C8: with attestation none, when the id of the popped backup key
already exists anywhere in the local store the creation fails with
DuplicateCredential and the credential store is left unchanged (only
the pool pop was persisted); and successful creations preserve global
uniqueness of the stored credential ids. -/
theorem C8_duplicate_credential_rejected :
    (∀ (origin : String) (opts : CreationOptions) (pin : Bytes) (st : AuthState)
       (freshKey : CryptoKey) (bk : PSKKey) (poolRest : List PSKKey),
       opts.attestation = "none" →
       popPSKKey st.backupPool = .ok (bk, poolRest) →
       keyExists st.keyStore bk.id = true →
       processCredentialCreation origin opts pin st freshKey
         = .failure .duplicateCredential { st with backupPool := poolRest })
    ∧ (∀ (origin : String) (opts : CreationOptions) (pin : Bytes) (st : AuthState)
        (freshKey : CryptoKey) (resp : AttestationResponse) (st2 : AuthState),
        processCredentialCreation origin opts pin st freshKey = .success resp st2 →
        (st.keyStore.map StoredKey.id).Nodup →
        (st2.keyStore.map StoredKey.id).Nodup) := by
  constructor
  · intro origin opts pin st freshKey bk poolRest hatt hpop hex
    simp only [processCredentialCreation, hatt, hpop, hex]
    simp
  · intro origin opts pin st freshKey resp st2 h hnd
    obtain ⟨bk, alg, _, _, hke, hst2, _⟩ := creation_success_inv h
    subst hst2
    have hfa : ∀ x ∈ st.keyStore, ¬x.id = bk.id := by
      simpa [keyExists] using hke
    simp only [saveKey, List.map_append]
    refine List.nodup_append.mpr ⟨hnd, by simp, ?_⟩
    intro a ha hb
    simp only [List.map_cons, List.map_nil, List.mem_singleton] at hb
    obtain ⟨x, hx, hxid⟩ := List.mem_map.mp ha
    exact hfa x hx (hxid.trans hb)

/-- C8 witness: a concrete creation whose popped backup key id is
already stored fails with DuplicateCredential, leaving the key store
unchanged; and a concrete successful creation preserves id
uniqueness. -/
theorem C8_duplicate_credential_rejected_witness :
    processCredentialCreation "https://example.com" optsC3 [9]
      { keyStore := [{ id := [51], pin := [4],
                       key := { algorithm := [1], material := [0], usages := [] } }],
        backupPool := [bkC3], recoveryPool := [], delegations := [] } freshC3
      = .failure .duplicateCredential
        { keyStore := [{ id := [51], pin := [4],
                         key := { algorithm := [1], material := [0], usages := [] } }],
          backupPool := [], recoveryPool := [], delegations := [] }
    ∧ ∃ st2 resp, processCredentialCreation "https://example.com" optsC3 [9] stC3
        freshC3 = .success resp st2
        ∧ (st2.keyStore.map StoredKey.id).Nodup := by
  have h := C8_duplicate_credential_rejected
  constructor
  · exact h.1 "https://example.com" optsC3 [9]
      { keyStore := [{ id := [51], pin := [4],
                       key := { algorithm := [1], material := [0], usages := [] } }],
        backupPool := [bkC3], recoveryPool := [], delegations := [] }
      freshC3 bkC3 [] rfl rfl rfl
  · obtain ⟨resp, st2, hrec⟩ :
        ∃ resp st2, processCredentialCreation "https://example.com" optsC3 [9]
          stC3 freshC3 = .success resp st2 := ⟨_, _, rfl⟩
    exact ⟨st2, resp, hrec,
      h.2 "https://example.com" optsC3 [9] stC3 freshC3 resp st2 hrec (by decide)⟩

/-- The scan selects position i when the candidate there fetches and
unwraps and all earlier candidates fail. -/
lemma scanCandidates_first (store : List StoredKey) (pin : Bytes) :
    ∀ (l : List Bytes) (i : Nat) (h : i < l.length) (key : CryptoKey),
      fetchKey store (l.get ⟨i, h⟩) pin = some key →
      (∀ (j : Nat) (hj : j < l.length), j < i →
        fetchKey store (l.get ⟨j, hj⟩) pin = none) →
      scanCandidates store pin l = some (l.get ⟨i, h⟩, key) := by
  intro l
  induction l with
  | nil =>
    intro i h
    exact absurd h (by simp)
  | cons a rest ih =>
    intro i h key hf hprev
    cases i with
    | zero =>
      simp only [List.get] at hf
      simp [scanCandidates, hf]
    | succ n =>
      have hn : n < rest.length := Nat.lt_of_succ_lt_succ h
      have h0 : fetchKey store a pin = none :=
        hprev 0 (Nat.succ_pos _) (Nat.succ_pos n)
      have hprev2 : ∀ (j : Nat) (hj : j < rest.length), j < n →
          fetchKey store (rest.get ⟨j, hj⟩) pin = none := by
        intro j hj hlt
        exact hprev (j + 1) (Nat.succ_lt_succ hj) (Nat.succ_lt_succ hlt)
      have hres := ih n hn key hf hprev2
      simp only [scanCandidates, h0]
      exact hres

/-- The scan fails when every candidate fails. -/
lemma scanCandidates_none (store : List StoredKey) (pin : Bytes) :
    ∀ l : List Bytes,
      (∀ (i : Nat) (h : i < l.length),
        fetchKey store (l.get ⟨i, h⟩) pin = none) →
      scanCandidates store pin l = none := by
  intro l
  induction l with
  | nil => intro _; rfl
  | cons a rest ih =>
    intro hall
    have h0 : fetchKey store a pin = none := hall 0 (Nat.succ_pos _)
    simp only [scanCandidates, h0]
    exact ih (fun i h => hall (i + 1) (Nat.succ_lt_succ h))

/-- A successful scan determines the full assertion outcome. -/
lemma request_scan_success (origin : String) (opts : RequestOptions)
    (pin : Bytes) (st : AuthState) (allow : List Bytes) (credId : Bytes)
    (key : CryptoKey)
    (hall : opts.allowCredentials = some allow)
    (hext : (opts.extensions.getD []).contains PSK = false)
    (hscan : scanCandidates st.keyStore pin allow = some (credId, key)) :
    processCredentialRequest origin opts pin st
      = .success
        { id := credId,
          rawId := credId,
          authenticatorData := generateAuthenticatorData key
            (opts.rpId.getD (getDomainFromOrigin origin)) 0 [] none,
          clientDataJSON := encodeClientData
            (generateClientData opts.challenge origin (some "not-supported")
              "webauthn.get"),
          signature := sign key
            (generateAuthenticatorData key
              (opts.rpId.getD (getDomainFromOrigin origin)) 0 [] none
             ++ sha256 (encodeClientData
                  (generateClientData opts.challenge origin
                    (some "not-supported") "webauthn.get"))),
          userHandle := [] } st := by
  have hextm : PSK ∉ opts.extensions.getD [] := by simpa using hext
  simp [processCredentialRequest, hall, hextm, hscan]

/-- C6: in the non-recovery assertion flow the offered credential ids
are scanned in the caller's order; the first id that exists in the
store and unwraps with the supplied PIN is selected (all earlier
candidates having failed), the store is unchanged, and if no candidate
fetches and unwraps the flow fails with CredentialNotFound. -/
theorem C6_first_unwrapping_candidate_selected
    (origin : String) (opts : RequestOptions) (pin : Bytes) (st : AuthState)
    (allow : List Bytes)
    (hall : opts.allowCredentials = some allow)
    (hext : (opts.extensions.getD []).contains PSK = false) :
    ((∀ (i : Nat) (h : i < allow.length),
        fetchKey st.keyStore (allow.get ⟨i, h⟩) pin = none) →
        processCredentialRequest origin opts pin st
          = .failure .credentialNotFound st)
    ∧ (∀ (i : Nat) (h : i < allow.length) (key : CryptoKey),
        fetchKey st.keyStore (allow.get ⟨i, h⟩) pin = some key →
        (∀ (j : Nat) (hj : j < allow.length), j < i →
          fetchKey st.keyStore (allow.get ⟨j, hj⟩) pin = none) →
        ∃ (resp : AssertionResponse) (st2 : AuthState),
          processCredentialRequest origin opts pin st = .success resp st2
          ∧ resp.id = allow.get ⟨i, h⟩
          ∧ st2 = st) := by
  constructor
  · intro hnone
    have hscan := scanCandidates_none st.keyStore pin allow hnone
    have hextm : PSK ∉ opts.extensions.getD [] := by simpa using hext
    simp [processCredentialRequest, hall, hextm, hscan]
  · intro i h key hf hprev
    have hscan := scanCandidates_first st.keyStore pin allow i h key hf hprev
    exact ⟨_, st,
      request_scan_success origin opts pin st allow (allow.get ⟨i, h⟩) key
        hall hext hscan, rfl, rfl⟩

/-- The stored key of the C6 scenario. -/
def kC6 : CryptoKey := { algorithm := [1], material := [17], usages := ["sign"] }

/-- The store state of the C6 scenario: only the second offered id is
stored. -/
def stC6 : AuthState :=
  { keyStore := [{ id := [62], pin := [9], key := kC6 }], backupPool := [],
    recoveryPool := [], delegations := [] }

/-- The C6 request: two offered credential ids, no extensions. -/
def optsC6 : RequestOptions :=
  { allowCredentials := some [[61], [62]], extensions := none,
    rpId := some "example.com", challenge := [3] }

/-- C6 witness: with the first offered id absent from the store, the
second is selected; with an empty store, the flow fails with
CredentialNotFound. -/
theorem C6_first_unwrapping_candidate_selected_witness :
    (∃ (resp : AssertionResponse) (st2 : AuthState),
      processCredentialRequest "https://example.com" optsC6 [9] stC6
        = .success resp st2
      ∧ resp.id = [62])
    ∧ processCredentialRequest "https://example.com" optsC6 [9]
        { stC6 with keyStore := [] }
        = .failure .credentialNotFound { stC6 with keyStore := [] } := by
  constructor
  · have h := C6_first_unwrapping_candidate_selected "https://example.com"
      optsC6 [9] stC6 [[61], [62]] rfl rfl
    obtain ⟨resp, st2, hp, hid, _⟩ := h.2 1 (by decide) kC6 rfl
      (by
        intro j hj hlt
        have hz : j = 0 := Nat.lt_one_iff.mp hlt
        subst hz
        rfl)
    exact ⟨resp, st2, hp, hid.trans rfl⟩
  · have h := C6_first_unwrapping_candidate_selected "https://example.com"
      optsC6 [9] { stC6 with keyStore := [] } [[61], [62]] rfl rfl
    apply h.1
    intro i hi
    match i, hi with
    | 0, _ => rfl
    | 1, _ => rfl

end Ckey

